import Mathlib

/-!
Shallow embedding of `server/server.py` (ProofOK), a minimal proof-approval
workflow: upload a PDF, get a token and shareable link, record approve/reject
decisions, best-effort email notification.

Conventions of the embedding:
* Python strings are Lean `String`s; the single-character `str.replace`,
  `str.lower`, `str.strip` and `str.upper` calls used by the source act
  character-wise, so they are embedded as maps/drops over `String.data`
  (`Char.isWhitespace` covers the ASCII whitespace relevant here).
* The record store (one JSON file per token, overwritten by `save_record`) is
  an association list `List (String × ProofRecord)`; a save prepends, a load
  returns the most recent entry, which models file overwrite exactly.
* Filesystem side effects (record saves, SMTP attempts) are reified into an
  `Effect` trace emitted by each handler, in the order the source performs
  them, so ordering claims can be stated.
* Nondeterminism of the environment is passed in explicitly: the fresh
  `uuid4().hex` value, the current timestamp, and the outcome of an SMTP send
  (`SendOutcome`).
-/

namespace ProofOK

/-- Python `s.lower()` restricted to the character-wise case used here. -/
def pyLower (s : String) : String :=
  String.mk (s.data.map Char.toLower)

/-- Python `s.upper()` (character-wise). -/
def pyUpper (s : String) : String :=
  String.mk (s.data.map Char.toUpper)

/-- Python `s.strip()`: drop whitespace from both ends. -/
def pyStrip (s : String) : String :=
  String.mk (((s.data.dropWhile Char.isWhitespace).reverse.dropWhile Char.isWhitespace).reverse)

/-- Python `s.endswith(suffix)`. -/
def pyEndsWith (s suffix : String) : Bool :=
  suffix.data.isSuffixOf s.data

/-- `original_name.replace("/", "_").replace("\\", "_")` from `api_upload`
(line 91).  A single-character Python `str.replace` is character-wise
substitution, so both replaces compose into one map. -/
def sanitize (s : String) : String :=
  String.mk (s.data.map (fun c => if c = '/' then '_' else if c = '\\' then '_' else c))

/-- One recorded approve/reject action (the dict built at lines 128-129 and
170-171 of the source). -/
structure DecisionEvent where
  ts_utc : String
  decision : String
  comment : String
  viewer_name : String
  viewer_email : String
  ip : String
deriving Repr, DecidableEq

/-- The per-token record document (lines 94-95 of the source). -/
structure ProofRecord where
  token : String
  original_name : String
  stored_name : String
  created_utc : String
  status : String
  responses : List DecisionEvent
deriving Repr, DecidableEq

/-- The server's persistent state: the record store (`data/` JSON files), the
set of per-token upload directories, and the stored files `(token, name)`. -/
structure ServerState where
  records : List (String × ProofRecord)
  dirs : List String
  files : List (String × String)
deriving Repr, DecidableEq

/-- `load_record` (lines 44-48): read the current document for a token, or
none.  On the association list, the most recently saved entry wins. -/
def load_record : List (String × ProofRecord) → String → Option ProofRecord
  | [], _ => none
  | (k, v) :: rest, token => if k = token then some v else load_record rest token

/-- Operator configuration read from the environment at startup
(lines 17-26). -/
structure Config where
  base_url : String
  smtp_host : String
  smtp_port : Nat
  smtp_timeout : Nat
  email_mode : String
deriving Repr, DecidableEq

/-- Observable side effects of a request handler, in program order. -/
inductive Effect where
  | save (token : String) (record : ProofRecord)
  | sendAttempt (subject : String)
deriving Repr, DecidableEq

/-- Whether an effect is an SMTP send attempt. -/
def Effect.isSend : Effect → Bool
  | .sendAttempt _ => true
  | .save _ _ => false

/-- Environment outcome of one `send_email` execution: the send succeeds, the
send raises an exception carrying message `msg` (connection refused, auth
failure, or — in sync mode — a socket timeout), or, in async mode, the bounded
`fut.result(timeout=...)` wait elapses (`FuturesTimeout`). -/
inductive SendOutcome where
  | success
  | failure (msg : String)
  | timeout
deriving Repr, DecidableEq

/-- The warning text `"Email send failed ({host}:{port}): {e}"`. -/
def emailFailWarning (cfg : Config) (e : String) : String :=
  "Email send failed (" ++ cfg.smtp_host ++ ":" ++ toString cfg.smtp_port ++ "): " ++ e

/-- The warning text `"Email is sending in background (timeout {N}s)."`. -/
def backgroundWarning (cfg : Config) : String :=
  "Email is sending in background (timeout " ++ toString cfg.smtp_timeout ++ "s)."

/-- The notification tail shared verbatim by both decision handlers
(lines 140-153 and 182-193): returns the advisory warning (if any) and the
send-attempt effects.  Mode `off` skips SMTP entirely; `sync` runs
`send_email` inline and catches any exception (a socket timeout in sync mode
is itself an exception, carried here as `SendOutcome.timeout`); any other mode
is the async default: submit to the executor and wait with a bound, mapping
`FuturesTimeout` and other exceptions to their respective warnings. -/
def notifyStep (cfg : Config) (subject : String) (outcome : SendOutcome) :
    Option String × List Effect :=
  if cfg.email_mode = "off" then
    (none, [])
  else if cfg.email_mode = "sync" then
    match outcome with
    | .success => (none, [Effect.sendAttempt subject])
    | .failure e => (some (emailFailWarning cfg e), [Effect.sendAttempt subject])
    | .timeout => (some (emailFailWarning cfg "timed out"), [Effect.sendAttempt subject])
  else
    match outcome with
    | .success => (none, [Effect.sendAttempt subject])
    | .failure e => (some (emailFailWarning cfg e), [Effect.sendAttempt subject])
    | .timeout => (some (backgroundWarning cfg), [Effect.sendAttempt subject])

/-- Result of `POST /api/upload`. -/
inductive UploadResult where
  | clientError (status : Nat) (msg : String)
  | ok (token : String) (url : String)
deriving Repr, DecidableEq

/-- `api_upload` (lines 83-99).  `file` is the declared filename of the
uploaded part when one is present; `oname` is the optional `original_name`
form field (defaulting to the filename); `uuidHex` is the fresh
`uuid.uuid4().hex` value (as characters); `now` the current UTC timestamp. -/
def api_upload (cfg : Config) (st : ServerState) (file : Option String)
    (oname : Option String) (uuidHex : List Char) (now : String) :
    ServerState × UploadResult :=
  match file with
  | none => (st, UploadResult.clientError 400 "Please upload a .pdf file")
  | some filename =>
    if pyEndsWith (pyLower filename) ".pdf" then
      let original_name := oname.getD filename
      let token : String := String.mk (uuidHex.take 12)
      let safe_name := sanitize original_name
      let record : ProofRecord :=
        { token := token, original_name := original_name, stored_name := safe_name,
          created_utc := now, status := "pending", responses := [] }
      let st2 : ServerState :=
        { records := (token, record) :: st.records,
          dirs := token :: st.dirs,
          files := (token, safe_name) :: st.files }
      (st2, UploadResult.ok token (cfg.base_url ++ "/proof/" ++ token))
    else
      (st, UploadResult.clientError 400 "Please upload a .pdf file")

/-- The request body fields read by the decision handlers, each possibly
absent (`data.get(...)` / `request.form.get(...)` returning `None`), together
with the `X-Forwarded-For` header (if present) and the peer address. -/
structure RespondRequest where
  decision : Option String
  comment : Option String
  viewer_name : Option String
  viewer_email : Option String
  xff : Option String
  remote_addr : String
deriving Repr, DecidableEq

/-- The Decision Event built by both handlers (lines 128-129 / 170-171):
decision lower-cased, free-text fields stripped, ip from `X-Forwarded-For`
falling back to the peer address. -/
def decisionEvent (req : RespondRequest) (now : String) : DecisionEvent :=
  { ts_utc := now,
    decision := pyLower (req.decision.getD ""),
    comment := pyStrip (req.comment.getD ""),
    viewer_name := pyStrip (req.viewer_name.getD ""),
    viewer_email := pyStrip (req.viewer_email.getD ""),
    ip := req.xff.getD req.remote_addr }

/-- The record mutation performed on a valid submission (line 130 / 172):
overwrite `status` with the decision and append the event. -/
def appendDecision (r : ProofRecord) (req : RespondRequest) (now : String) : ProofRecord :=
  { r with status := (decisionEvent req now).decision,
           responses := r.responses ++ [decisionEvent req now] }

/-- The email subject `"[Proof] {original_name} — {DECISION}"` (line 132 / 174). -/
def decisionSubject (r : ProofRecord) (decision : String) : String :=
  "[Proof] " ++ r.original_name ++ " — " ++ pyUpper decision

/-- A JSON response of `POST /api/respond/{token}`: an error with HTTP status
and message, or `{ok: true}` with an optional `warning` field. -/
inductive ApiResponse where
  | error (status : Nat) (msg : String)
  | ok (warning : Option String)
deriving Repr, DecidableEq

/-- Whether an `ApiResponse` is the success shape `{ok: true, ...}`. -/
def ApiResponse.isOk : ApiResponse → Bool
  | .ok _ => true
  | .error _ _ => false

/-- `api_respond` (lines 115-154): load the record (404 if absent), normalize
the inputs, validate the decision, mutate-and-save, then attempt
notification; always returns 200 `{ok: true}` after the save, with at most an
advisory warning. -/
def api_respond (cfg : Config) (st : ServerState) (token : String)
    (req : RespondRequest) (now : String) (outcome : SendOutcome) :
    ServerState × ApiResponse × List Effect :=
  match load_record st.records token with
  | none => (st, ApiResponse.error 404 "Not found", [])
  | some r =>
    let decision := pyLower (req.decision.getD "")
    if decision = "approved" ∨ decision = "rejected" then
      let r2 := appendDecision r req now
      let st2 : ServerState := { st with records := (token, r2) :: st.records }
      let ns := notifyStep cfg (decisionSubject r decision) outcome
      (st2, ApiResponse.ok ns.1, Effect.save token r2 :: ns.2)
    else
      (st, ApiResponse.error 400 "decision must be approved or rejected", [])

/-- The HTML page produced by `render_result` (lines 67-69): the template's
inputs, which are the observable content of a form-path response. -/
structure ResultPage where
  ok : Bool
  message : String
  warning : String
  token : String
  original_name : String
deriving Repr, DecidableEq

/-- `respond_form` (lines 156-194): like `api_respond` but renders HTML pages,
reports an unknown token as a not-found error page, and additionally rejects
a `rejected` decision whose stripped comment is empty. -/
def respond_form (cfg : Config) (st : ServerState) (token : String)
    (req : RespondRequest) (now : String) (outcome : SendOutcome) :
    ServerState × ResultPage × List Effect :=
  match load_record st.records token with
  | none =>
    (st, { ok := false, message := "This proof link was not found.",
           warning := "", token := "", original_name := "" }, [])
  | some r =>
    let decision := pyLower (req.decision.getD "")
    let comment := pyStrip (req.comment.getD "")
    if ¬ (decision = "approved" ∨ decision = "rejected") then
      (st, { ok := false, message := "Invalid decision.", warning := "",
             token := token, original_name := r.original_name }, [])
    else if decision = "rejected" ∧ comment = "" then
      (st, { ok := false, message := "Please include a comment when rejecting.",
             warning := "", token := token, original_name := r.original_name }, [])
    else
      let r2 := appendDecision r req now
      let st2 : ServerState := { st with records := (token, r2) :: st.records }
      let ns := notifyStep cfg (decisionSubject r decision) outcome
      (st2, { ok := true, message := "Thank you — your decision was recorded.",
              warning := ns.1.getD "", token := token,
              original_name := r.original_name }, Effect.save token r2 :: ns.2)

/-- Result of `GET /proof/{token}` (lines 101-107): 404 for an unknown token,
else the rendered viewer page with its PDF link. -/
inductive ProofPageResult where
  | notFound
  | page (token : String) (original_name : String) (pdf_url : String)
deriving Repr, DecidableEq

/-- `proof_page` (lines 101-107). -/
def proof_page (st : ServerState) (token : String) : ProofPageResult :=
  match load_record st.records token with
  | none => ProofPageResult.notFound
  | some r => ProofPageResult.page token r.original_name ("/p/" ++ token ++ "/" ++ r.stored_name)

/-- Split a character sequence into path segments at `/` (the accumulator
holds the current segment reversed). -/
def splitSegs : List Char → List Char → List (List Char)
  | [], acc => [acc.reverse]
  | c :: rest, acc =>
    if c = '/' then acc.reverse :: splitSegs rest [] else splitSegs rest (c :: acc)

/-- Normalize path segments the way the OS resolves them when the file is
opened: `..` pops the previous segment, `.` and empty segments vanish. -/
def normSegs (segs : List (List Char)) : List (List Char) :=
  segs.foldl
    (fun acc seg =>
      if seg = ['.', '.'] then acc.dropLast
      else if seg = ['.'] ∨ seg = [] then acc
      else acc ++ [seg])
    []

/-- Whether joining `name` under the directory whose segments are `dir`
resolves to a path strictly inside that directory. -/
def insideDir (dir : List (List Char)) (name : String) : Bool :=
  let full := normSegs (dir ++ splitSegs name.data [])
  let base := normSegs dir
  decide (base.length < full.length) && (full.take base.length == base)

/-- A fixture record for concrete executions: a fresh pending upload. -/
def sampleRecord : ProofRecord :=
  { token := "tok123", original_name := "invoice.pdf", stored_name := "invoice.pdf",
    created_utc := "2026-01-01T00:00:00Z", status := "pending", responses := [] }

/-- A fixture server state holding exactly `sampleRecord`. -/
def sampleState : ServerState :=
  { records := [("tok123", sampleRecord)], dirs := ["tok123"],
    files := [("tok123", "invoice.pdf")] }

/-- A fixture configuration with delivery mode `off`. -/
def cfgOff : Config :=
  { base_url := "http://127.0.0.1:5000", smtp_host := "smtp.colormagic.biz",
    smtp_port := 587, smtp_timeout := 10, email_mode := "off" }

/-- A fixture configuration with delivery mode `async` (the default). -/
def cfgAsync : Config :=
  { cfgOff with email_mode := "async" }

/-- A fixture server state with no records at all. -/
def emptyState : ServerState :=
  { records := [], dirs := [], files := [] }

/-! ### Helper lemmas shared by the claim proofs -/

theorem load_record_cons_self (t : String) (v : ProofRecord) (l : List (String × ProofRecord)) :
    load_record ((t, v) :: l) t = some v := by
  simp [load_record]

/-- A valid submission on the API path: the handler saves the mutated record
and answers `{ok: true}` with the notification step's warning and effects. -/
theorem api_respond_valid (cfg : Config) (st : ServerState) (token : String) (r : ProofRecord)
    (req : RespondRequest) (now : String) (outcome : SendOutcome)
    (hload : load_record st.records token = some r)
    (hvalid : pyLower (req.decision.getD "") = "approved" ∨
              pyLower (req.decision.getD "") = "rejected") :
    api_respond cfg st token req now outcome =
      ({ st with records := (token, appendDecision r req now) :: st.records },
       ApiResponse.ok (notifyStep cfg (decisionSubject r (pyLower (req.decision.getD ""))) outcome).1,
       Effect.save token (appendDecision r req now) ::
         (notifyStep cfg (decisionSubject r (pyLower (req.decision.getD ""))) outcome).2) := by
  unfold api_respond
  rw [hload]
  dsimp only
  rw [if_pos hvalid]

/-- A valid submission on the form path (comment rule satisfied): the handler
saves the mutated record and renders the thank-you page. -/
theorem respond_form_valid (cfg : Config) (st : ServerState) (token : String) (r : ProofRecord)
    (req : RespondRequest) (now : String) (outcome : SendOutcome)
    (hload : load_record st.records token = some r)
    (hvalid : pyLower (req.decision.getD "") = "approved" ∨
              pyLower (req.decision.getD "") = "rejected")
    (hcom : ¬ (pyLower (req.decision.getD "") = "rejected" ∧
               pyStrip (req.comment.getD "") = "")) :
    respond_form cfg st token req now outcome =
      ({ st with records := (token, appendDecision r req now) :: st.records },
       { ok := true, message := "Thank you — your decision was recorded.",
         warning := (notifyStep cfg (decisionSubject r (pyLower (req.decision.getD ""))) outcome).1.getD "",
         token := token, original_name := r.original_name },
       Effect.save token (appendDecision r req now) ::
         (notifyStep cfg (decisionSubject r (pyLower (req.decision.getD ""))) outcome).2) := by
  unfold respond_form
  rw [hload]
  dsimp only
  rw [if_neg (not_not_intro hvalid), if_neg hcom]

/-- Every effect emitted by the notification step is a send attempt. -/
theorem notifyStep_sends (cfg : Config) (subj : String) (outcome : SendOutcome) :
    ∀ e ∈ (notifyStep cfg subj outcome).2, e.isSend = true := by
  unfold notifyStep
  by_cases h1 : cfg.email_mode = "off" <;> by_cases h2 : cfg.email_mode = "sync" <;>
    rcases outcome <;> simp [h1, h2, Effect.isSend]

/-- With delivery mode `off` the notification step is skipped entirely. -/
theorem notifyStep_off (cfg : Config) (subj : String) (outcome : SendOutcome)
    (hmode : cfg.email_mode = "off") :
    notifyStep cfg subj outcome = (none, []) := by
  unfold notifyStep
  rw [if_pos hmode]

/-! ### Claim theorems -/

/-- Claim C2: every upload whose declared filename ends in `.pdf` succeeds,
returns the 12-character token `uuid4().hex[:12]` and the URL
`{base}/proof/{token}`, and that token maps (via `load_record` on the new
state) to a record with `status = "pending"` and empty `responses`. -/
theorem C2_upload_pdf_creates_pending_record (cfg : Config) (st : ServerState)
    (fn : String) (oname : Option String) (uuidHex : List Char) (now : String)
    (hpdf : pyEndsWith (pyLower fn) ".pdf" = true) (hlen : uuidHex.length = 32) :
    (api_upload cfg st (some fn) oname uuidHex now).2 =
      UploadResult.ok (String.mk (uuidHex.take 12))
        (cfg.base_url ++ "/proof/" ++ String.mk (uuidHex.take 12)) ∧
    (String.mk (uuidHex.take 12)).length = 12 ∧
    load_record (api_upload cfg st (some fn) oname uuidHex now).1.records
        (String.mk (uuidHex.take 12)) =
      some { token := String.mk (uuidHex.take 12), original_name := oname.getD fn,
             stored_name := sanitize (oname.getD fn), created_utc := now,
             status := "pending", responses := [] } := by
  refine ⟨?_, ?_, ?_⟩
  · unfold api_upload
    dsimp only
    rw [if_pos hpdf]
  · show (uuidHex.take 12).length = 12
    rw [List.length_take, hlen]
    decide
  · unfold api_upload
    dsimp only
    rw [if_pos hpdf]
    exact load_record_cons_self _ _ _

/-- Claim C2 witness: uploading `invoice.pdf` with a concrete 32-character
`uuid4().hex` value. -/
theorem C2_witness :
    (pyEndsWith (pyLower "invoice.pdf") ".pdf" = true ∧
     ("0123456789abcdef0123456789abcdef".data).length = 32) ∧
    ((api_upload cfgOff emptyState (some "invoice.pdf") (some "invoice.pdf")
        "0123456789abcdef0123456789abcdef".data "t0").2 =
      UploadResult.ok "0123456789ab" "http://127.0.0.1:5000/proof/0123456789ab" ∧
     ("0123456789ab" : String).length = 12 ∧
     load_record (api_upload cfgOff emptyState (some "invoice.pdf") (some "invoice.pdf")
        "0123456789abcdef0123456789abcdef".data "t0").1.records "0123456789ab" =
      some { token := "0123456789ab", original_name := "invoice.pdf",
             stored_name := "invoice.pdf", created_utc := "t0",
             status := "pending", responses := [] }) :=
  ⟨⟨by decide, by decide⟩,
   C2_upload_pdf_creates_pending_record cfgOff emptyState "invoice.pdf" (some "invoice.pdf")
     "0123456789abcdef0123456789abcdef".data "t0" (by decide) (by decide)⟩

/-- Claim C3: an upload with no file part, or whose declared filename does not
end in `.pdf` case-insensitively, returns the 400 client error and leaves the
whole server state (records, directories, files) unchanged. -/
theorem C3_upload_non_pdf_rejected (cfg : Config) (st : ServerState)
    (file : Option String) (oname : Option String) (uuidHex : List Char) (now : String)
    (h : file = none ∨ ∃ fn, file = some fn ∧ pyEndsWith (pyLower fn) ".pdf" = false) :
    api_upload cfg st file oname uuidHex now =
      (st, UploadResult.clientError 400 "Please upload a .pdf file") := by
  rcases h with h | ⟨fn, hfn, hpdf⟩
  · rw [h]
    rfl
  · rw [hfn]
    unfold api_upload
    dsimp only
    rw [if_neg]
    rw [hpdf]
    exact Bool.false_ne_true

/-- Claim C3 witness: a missing file part and a `.png` filename are both
rejected without touching the fixture state. -/
theorem C3_witness :
    ((none : Option String) = none ∨
      ∃ fn, (none : Option String) = some fn ∧ pyEndsWith (pyLower fn) ".pdf" = false) ∧
    api_upload cfgOff sampleState none none [] "t0" =
      (sampleState, UploadResult.clientError 400 "Please upload a .pdf file") :=
  ⟨Or.inl rfl, C3_upload_non_pdf_rejected cfgOff sampleState none none [] "t0" (Or.inl rfl)⟩

/-- Claim C7: for a token with no record, the proof page is a 404, the API
submission path answers the 404 error, and the form submission path renders
the not-found error page; none of them changes the state or emits effects. -/
theorem C7_unknown_token_not_found (cfg : Config) (st : ServerState) (token : String)
    (req : RespondRequest) (now : String) (outcome : SendOutcome)
    (hload : load_record st.records token = none) :
    proof_page st token = ProofPageResult.notFound ∧
    api_respond cfg st token req now outcome = (st, ApiResponse.error 404 "Not found", []) ∧
    respond_form cfg st token req now outcome =
      (st, { ok := false, message := "This proof link was not found.", warning := "",
             token := "", original_name := "" }, []) := by
  refine ⟨?_, ?_, ?_⟩
  · unfold proof_page
    rw [hload]
  · unfold api_respond
    rw [hload]
  · unfold respond_form
    rw [hload]

/-- Claim C7 witness: the empty state knows no token `deadbeef0000`. -/
theorem C7_witness :
    load_record emptyState.records "deadbeef0000" = none ∧
    proof_page emptyState "deadbeef0000" = ProofPageResult.notFound :=
  ⟨rfl,
   (C7_unknown_token_not_found cfgOff emptyState "deadbeef0000"
     { decision := some "approved", comment := none, viewer_name := none,
       viewer_email := none, xff := none, remote_addr := "1.2.3.4" }
     "t1" SendOutcome.success rfl).1⟩

/-- Claim C8 counterexample: sanitization only replaces path separators, so
`original_name = ".."` survives as the literal `..` — a path-traversal
segment — and joining it under the token's upload directory resolves to the
directory's parent, not inside it. -/
theorem C8_counterexample :
    sanitize ".." = ".." ∧
    splitSegs (sanitize "..").data [] = [['.', '.']] ∧
    insideDir (splitSegs "uploads/tok123".data []) (sanitize "..") = false := by
  decide

/-- Claim C8 (amended): the sanitized `stored_name` never contains a path
separator (`/` or `\`); dot-only names such as `..` are preserved verbatim,
so containment inside the token directory is not guaranteed for them. -/
theorem C8_sanitize_strips_separators (s : String) :
    ((sanitize s).data.all fun c => !(c == '/' || c == '\\')) = true := by
  show ((s.data.map _).all _) = true
  rw [List.all_map, List.all_eq_true]
  intro c _
  by_cases h1 : c = '/'
  · simp [Function.comp, h1]
  · by_cases h2 : c = '\\' <;> simp [Function.comp, h1, h2]

/-- A request with a comment carrying surrounding whitespace, used to show
the handlers strip free-text fields before storing them. -/
def reqTrim : RespondRequest :=
  { decision := some "approved", comment := some " note ", viewer_name := some "Alice",
    viewer_email := some "a@x.com", xff := none, remote_addr := "1.2.3.4" }

/-- Claim C1 counterexample: submitting comment `" note "` on the API path
stores the stripped string `"note"`, so the appended event's `comment` field
is not equal to the submitted input. -/
theorem C1_counterexample :
    reqTrim.comment = some " note " ∧
    ((load_record (api_respond cfgOff sampleState "tok123" reqTrim "t1"
          SendOutcome.success).1.records "tok123").map
        fun r => r.responses.map DecisionEvent.comment) = some ["note"] ∧
    ("note" : String) ≠ " note " := by
  decide

/-- Claim C1 (amended): for an existing token and a decision in
`{approved, rejected}`, a successful submission on either path reloads as the
record with `status` overwritten to the submitted decision and exactly one
event appended, whose fields are the submitted decision, the
whitespace-stripped comment/viewer_name/viewer_email, and the ip taken from
`X-Forwarded-For` with fallback to the peer address. -/
theorem C1_decision_recorded (cfg : Config) (st : ServerState) (token : String)
    (r : ProofRecord) (req : RespondRequest) (now : String) (outcome : SendOutcome)
    (hload : load_record st.records token = some r)
    (hdec : req.decision.getD "" = "approved" ∨ req.decision.getD "" = "rejected") :
    decisionEvent req now =
      { ts_utc := now, decision := req.decision.getD "",
        comment := pyStrip (req.comment.getD ""),
        viewer_name := pyStrip (req.viewer_name.getD ""),
        viewer_email := pyStrip (req.viewer_email.getD ""),
        ip := req.xff.getD req.remote_addr } ∧
    load_record (api_respond cfg st token req now outcome).1.records token =
      some { r with status := req.decision.getD "",
                    responses := r.responses ++ [decisionEvent req now] } ∧
    (r.responses ++ [decisionEvent req now]).length = r.responses.length + 1 ∧
    ((req.decision.getD "" = "rejected" → pyStrip (req.comment.getD "") ≠ "") →
      load_record (respond_form cfg st token req now outcome).1.records token =
        some { r with status := req.decision.getD "",
                      responses := r.responses ++ [decisionEvent req now] }) := by
  have hl : pyLower (req.decision.getD "") = req.decision.getD "" := by
    rcases hdec with h | h <;> rw [h] <;> decide
  have hvalid : pyLower (req.decision.getD "") = "approved" ∨
      pyLower (req.decision.getD "") = "rejected" := by
    rw [hl]; exact hdec
  have hrec : appendDecision r req now =
      { r with status := req.decision.getD "",
               responses := r.responses ++ [decisionEvent req now] } := by
    unfold appendDecision
    rw [show (decisionEvent req now).decision = req.decision.getD "" from hl]
  refine ⟨?_, ?_, ?_, ?_⟩
  · unfold decisionEvent
    rw [hl]
  · rw [api_respond_valid cfg st token r req now outcome hload hvalid]
    show load_record ((token, appendDecision r req now) :: st.records) token = _
    rw [load_record_cons_self, hrec]
  · rw [List.length_append]
    rfl
  · intro hcomRule
    have hcom : ¬ (pyLower (req.decision.getD "") = "rejected" ∧
        pyStrip (req.comment.getD "") = "") := by
      rintro ⟨hrj, hce⟩
      exact hcomRule (by rw [← hl]; exact hrj) hce
    rw [respond_form_valid cfg st token r req now outcome hload hvalid hcom]
    show load_record ((token, appendDecision r req now) :: st.records) token = _
    rw [load_record_cons_self, hrec]

/-- Claim C1 witness: the amended statement at a concrete approved submission
on the fixture state. -/
theorem C1_witness :
    decisionEvent reqTrim "t1" =
      { ts_utc := "t1", decision := "approved", comment := "note",
        viewer_name := "Alice", viewer_email := "a@x.com", ip := "1.2.3.4" } ∧
    load_record (api_respond cfgAsync sampleState "tok123" reqTrim "t1"
        SendOutcome.timeout).1.records "tok123" =
      some { sampleRecord with status := "approved",
                               responses := [decisionEvent reqTrim "t1"] } :=
  ⟨by decide,
   (C1_decision_recorded cfgAsync sampleState "tok123" sampleRecord reqTrim "t1"
      SendOutcome.timeout rfl (Or.inl rfl)).2.1⟩

/-- A request whose decision is the mixed-case string `"Approved"`. -/
def reqMixedCase : RespondRequest :=
  { decision := some "Approved", comment := some "", viewer_name := some "Bob",
    viewer_email := some "b@x.com", xff := some "5.6.7.8", remote_addr := "9.9.9.9" }

/-- Claim C4 counterexample: the decision value `"Approved"` lies outside
`{approved, rejected}`, yet the API path accepts it (lower-casing it first):
the response is `{ok: true}` and the record is mutated from `pending` to
`approved`. -/
theorem C4_counterexample :
    ("Approved" ∉ (["approved", "rejected"] : List String)) ∧
    (api_respond cfgOff sampleState "tok123" reqMixedCase "t1"
        SendOutcome.success).2.1 = ApiResponse.ok none ∧
    ((load_record (api_respond cfgOff sampleState "tok123" reqMixedCase "t1"
          SendOutcome.success).1.records "tok123").map ProofRecord.status) = some "approved" ∧
    sampleRecord.status = "pending" := by
  decide

/-- Claim C4 (amended): for an existing token, a submitted decision whose
lower-cased form lies outside `{approved, rejected}` fails on both paths with
the respective client error, leaving the state unchanged and emitting no
effects. -/
theorem C4_invalid_decision_rejected (cfg : Config) (st : ServerState) (token : String)
    (r : ProofRecord) (req : RespondRequest) (now : String) (outcome : SendOutcome)
    (hload : load_record st.records token = some r)
    (hbad : ¬ (pyLower (req.decision.getD "") = "approved" ∨
               pyLower (req.decision.getD "") = "rejected")) :
    api_respond cfg st token req now outcome =
      (st, ApiResponse.error 400 "decision must be approved or rejected", []) ∧
    respond_form cfg st token req now outcome =
      (st, { ok := false, message := "Invalid decision.", warning := "",
             token := token, original_name := r.original_name }, []) := by
  constructor
  · unfold api_respond
    rw [hload]
    dsimp only
    rw [if_neg hbad]
  · unfold respond_form
    rw [hload]
    dsimp only
    rw [if_pos hbad]

/-- Claim C4 witness: decision `"maybe"` is refused on both paths on the
fixture state. -/
theorem C4_witness :
    load_record sampleState.records "tok123" = some sampleRecord ∧
    api_respond cfgOff sampleState "tok123"
      { decision := some "maybe", comment := none, viewer_name := none,
        viewer_email := none, xff := none, remote_addr := "1.2.3.4" }
      "t1" SendOutcome.success =
      (sampleState, ApiResponse.error 400 "decision must be approved or rejected", []) :=
  ⟨rfl,
   (C4_invalid_decision_rejected cfgOff sampleState "tok123" sampleRecord
      { decision := some "maybe", comment := none, viewer_name := none,
        viewer_email := none, xff := none, remote_addr := "1.2.3.4" }
      "t1" SendOutcome.success rfl (by decide)).1⟩

/-- Claim C5: for an existing token, a `rejected` decision whose stripped
comment is empty is refused by the form path (error page, no state change, no
effects), while the identical submission on the API path succeeds, appends
the event and overwrites `status` to `rejected`. -/
theorem C5_reject_needs_comment_on_form_only (cfg : Config) (st : ServerState)
    (token : String) (r : ProofRecord) (req : RespondRequest) (now : String)
    (outcome : SendOutcome)
    (hload : load_record st.records token = some r)
    (hdec : pyLower (req.decision.getD "") = "rejected")
    (hcom : pyStrip (req.comment.getD "") = "") :
    respond_form cfg st token req now outcome =
      (st, { ok := false, message := "Please include a comment when rejecting.",
             warning := "", token := token, original_name := r.original_name }, []) ∧
    (api_respond cfg st token req now outcome).2.1.isOk = true ∧
    load_record (api_respond cfg st token req now outcome).1.records token =
      some { r with status := "rejected",
                    responses := r.responses ++ [decisionEvent req now] } := by
  have hvalid : pyLower (req.decision.getD "") = "approved" ∨
      pyLower (req.decision.getD "") = "rejected" := Or.inr hdec
  refine ⟨?_, ?_, ?_⟩
  · unfold respond_form
    rw [hload]
    dsimp only
    rw [if_neg (not_not_intro hvalid), if_pos ⟨hdec, hcom⟩]
  · rw [api_respond_valid cfg st token r req now outcome hload hvalid]
    rfl
  · rw [api_respond_valid cfg st token r req now outcome hload hvalid]
    show load_record ((token, appendDecision r req now) :: st.records) token = _
    rw [load_record_cons_self]
    unfold appendDecision
    rw [show (decisionEvent req now).decision = pyLower (req.decision.getD "") from rfl, hdec]

/-- Claim C5 witness: rejecting with a whitespace-only comment on the fixture
state — the form path refuses, the API path records it. -/
theorem C5_witness :
    respond_form cfgOff sampleState "tok123"
      { decision := some "rejected", comment := some "   ", viewer_name := some "Eve",
        viewer_email := some "e@x.com", xff := none, remote_addr := "1.2.3.4" }
      "t1" SendOutcome.success =
      (sampleState, { ok := false, message := "Please include a comment when rejecting.",
                      warning := "", token := "tok123", original_name := "invoice.pdf" }, []) ∧
    (api_respond cfgOff sampleState "tok123"
      { decision := some "rejected", comment := some "   ", viewer_name := some "Eve",
        viewer_email := some "e@x.com", xff := none, remote_addr := "1.2.3.4" }
      "t1" SendOutcome.success).2.1.isOk = true :=
  ⟨(C5_reject_needs_comment_on_form_only cfgOff sampleState "tok123" sampleRecord
      { decision := some "rejected", comment := some "   ", viewer_name := some "Eve",
        viewer_email := some "e@x.com", xff := none, remote_addr := "1.2.3.4" }
      "t1" SendOutcome.success rfl (by decide) (by decide)).1,
   (C5_reject_needs_comment_on_form_only cfgOff sampleState "tok123" sampleRecord
      { decision := some "rejected", comment := some "   ", viewer_name := some "Eve",
        viewer_email := some "e@x.com", xff := none, remote_addr := "1.2.3.4" }
      "t1" SendOutcome.success rfl (by decide) (by decide)).2.1⟩

/-- Claim C6: every successful submission (either path, any delivery mode,
any send outcome) persists the mutated record — the effect trace begins with
the `save` of the record holding the new event, and everything after it is a
send attempt — the reloaded state holds the appended event, and the response
still reports success: notification trouble never fails the operation or
loses the decision. -/
theorem C6_persist_before_notify (cfg : Config) (st : ServerState) (token : String)
    (r : ProofRecord) (req : RespondRequest) (now : String) (outcome : SendOutcome)
    (hload : load_record st.records token = some r)
    (hvalid : pyLower (req.decision.getD "") = "approved" ∨
              pyLower (req.decision.getD "") = "rejected") :
    ((api_respond cfg st token req now outcome).2.1.isOk = true ∧
     load_record (api_respond cfg st token req now outcome).1.records token =
       some (appendDecision r req now) ∧
     (api_respond cfg st token req now outcome).2.2.head? =
       some (Effect.save token (appendDecision r req now)) ∧
     ∀ e ∈ (api_respond cfg st token req now outcome).2.2.tail, e.isSend = true) ∧
    (¬ (pyLower (req.decision.getD "") = "rejected" ∧ pyStrip (req.comment.getD "") = "") →
      ((respond_form cfg st token req now outcome).2.1.ok = true ∧
       load_record (respond_form cfg st token req now outcome).1.records token =
         some (appendDecision r req now) ∧
       (respond_form cfg st token req now outcome).2.2.head? =
         some (Effect.save token (appendDecision r req now)) ∧
       ∀ e ∈ (respond_form cfg st token req now outcome).2.2.tail, e.isSend = true)) := by
  constructor
  · rw [api_respond_valid cfg st token r req now outcome hload hvalid]
    refine ⟨rfl, ?_, rfl, ?_⟩
    · show load_record ((token, appendDecision r req now) :: st.records) token = _
      rw [load_record_cons_self]
    · exact notifyStep_sends cfg _ outcome
  · intro hcom
    rw [respond_form_valid cfg st token r req now outcome hload hvalid hcom]
    refine ⟨rfl, ?_, rfl, ?_⟩
    · show load_record ((token, appendDecision r req now) :: st.records) token = _
      rw [load_record_cons_self]
    · exact notifyStep_sends cfg _ outcome

/-- Claim C6 witness: an approved submission with delivery mode `async` and a
failing send still records the decision with the save first in the trace. -/
theorem C6_witness :
    (api_respond cfgAsync sampleState "tok123" reqTrim "t1"
        (SendOutcome.failure "connection refused")).2.1.isOk = true ∧
    load_record (api_respond cfgAsync sampleState "tok123" reqTrim "t1"
        (SendOutcome.failure "connection refused")).1.records "tok123" =
      some (appendDecision sampleRecord reqTrim "t1") ∧
    (api_respond cfgAsync sampleState "tok123" reqTrim "t1"
        (SendOutcome.failure "connection refused")).2.2.head? =
      some (Effect.save "tok123" (appendDecision sampleRecord reqTrim "t1")) :=
  ⟨(C6_persist_before_notify cfgAsync sampleState "tok123" sampleRecord reqTrim "t1"
      (SendOutcome.failure "connection refused") rfl (Or.inl (by decide))).1.1,
   (C6_persist_before_notify cfgAsync sampleState "tok123" sampleRecord reqTrim "t1"
      (SendOutcome.failure "connection refused") rfl (Or.inl (by decide))).1.2.1,
   (C6_persist_before_notify cfgAsync sampleState "tok123" sampleRecord reqTrim "t1"
      (SendOutcome.failure "connection refused") rfl (Or.inl (by decide))).1.2.2.1⟩

/-- Claim C9: with delivery mode `off`, a successful submission on the API
path answers `{ok: true}` with no warning field, a successful submission on
the form path renders the thank-you page with an empty warning, and neither
emits any send-attempt effect. -/
theorem C9_mode_off_no_send (cfg : Config) (st : ServerState) (token : String)
    (r : ProofRecord) (req : RespondRequest) (now : String) (outcome : SendOutcome)
    (hmode : cfg.email_mode = "off")
    (hload : load_record st.records token = some r)
    (hvalid : pyLower (req.decision.getD "") = "approved" ∨
              pyLower (req.decision.getD "") = "rejected") :
    ((api_respond cfg st token req now outcome).2.1 = ApiResponse.ok none ∧
     ∀ e ∈ (api_respond cfg st token req now outcome).2.2, e.isSend = false) ∧
    (¬ (pyLower (req.decision.getD "") = "rejected" ∧ pyStrip (req.comment.getD "") = "") →
      ((respond_form cfg st token req now outcome).2.1 =
        { ok := true, message := "Thank you — your decision was recorded.", warning := "",
          token := token, original_name := r.original_name } ∧
       ∀ e ∈ (respond_form cfg st token req now outcome).2.2, e.isSend = false)) := by
  constructor
  · rw [api_respond_valid cfg st token r req now outcome hload hvalid,
        notifyStep_off cfg _ outcome hmode]
    refine ⟨rfl, ?_⟩
    show ∀ e ∈ [Effect.save token (appendDecision r req now)], e.isSend = false
    intro e he
    rw [List.mem_singleton] at he
    rw [he]
    rfl
  · intro hcom
    rw [respond_form_valid cfg st token r req now outcome hload hvalid hcom,
        notifyStep_off cfg _ outcome hmode]
    refine ⟨rfl, ?_⟩
    show ∀ e ∈ [Effect.save token (appendDecision r req now)], e.isSend = false
    intro e he
    rw [List.mem_singleton] at he
    rw [he]
    rfl

/-- Claim C9 witness: an approved API submission on the fixture state with
mode `off` answers `{ok: true}` with no warning. -/
theorem C9_witness :
    (api_respond cfgOff sampleState "tok123" reqTrim "t1" SendOutcome.success).2.1 =
      ApiResponse.ok none :=
  (C9_mode_off_no_send cfgOff sampleState "tok123" sampleRecord reqTrim "t1"
    SendOutcome.success rfl rfl (Or.inl (by decide))).1.1

/-- Claim C10: both paths lower-case the incoming decision before validation
and storage, so any casing whose lower-cased form is `approved` or `rejected`
is accepted, and the persisted `status` and event `decision` equal that exact
lower-case string. -/
theorem C10_decision_lowercased (cfg : Config) (st : ServerState) (token : String)
    (r : ProofRecord) (req : RespondRequest) (now : String) (outcome : SendOutcome)
    (hload : load_record st.records token = some r)
    (hvalid : pyLower (req.decision.getD "") = "approved" ∨
              pyLower (req.decision.getD "") = "rejected") :
    ((api_respond cfg st token req now outcome).2.1.isOk = true ∧
     load_record (api_respond cfg st token req now outcome).1.records token =
       some (appendDecision r req now)) ∧
    (appendDecision r req now).status = pyLower (req.decision.getD "") ∧
    (decisionEvent req now).decision = pyLower (req.decision.getD "") ∧
    (appendDecision r req now).responses.getLast? = some (decisionEvent req now) ∧
    ((appendDecision r req now).status = "approved" ∨
     (appendDecision r req now).status = "rejected") ∧
    (¬ (pyLower (req.decision.getD "") = "rejected" ∧ pyStrip (req.comment.getD "") = "") →
      (respond_form cfg st token req now outcome).2.1.ok = true ∧
      load_record (respond_form cfg st token req now outcome).1.records token =
        some (appendDecision r req now)) := by
  refine ⟨⟨?_, ?_⟩, rfl, rfl, ?_, ?_, ?_⟩
  · rw [api_respond_valid cfg st token r req now outcome hload hvalid]
    rfl
  · rw [api_respond_valid cfg st token r req now outcome hload hvalid]
    show load_record ((token, appendDecision r req now) :: st.records) token = _
    rw [load_record_cons_self]
  · show (r.responses ++ [decisionEvent req now]).getLast? = some (decisionEvent req now)
    rw [List.getLast?_concat]
  · exact hvalid
  · intro hcom
    rw [respond_form_valid cfg st token r req now outcome hload hvalid hcom]
    constructor
    · rfl
    · show load_record ((token, appendDecision r req now) :: st.records) token = _
      rw [load_record_cons_self]

/-- Claim C10 witness: the mixed-case decision `"Approved"` is accepted on the
API path and stored as the exact lowercase string `"approved"`. -/
theorem C10_witness :
    (api_respond cfgOff sampleState "tok123" reqMixedCase "t1" SendOutcome.success).2.1.isOk =
      true ∧
    (appendDecision sampleRecord reqMixedCase "t1").status = "approved" :=
  ⟨(C10_decision_lowercased cfgOff sampleState "tok123" sampleRecord reqMixedCase "t1"
      SendOutcome.success rfl (Or.inl (by decide))).1.1,
   (C10_decision_lowercased cfgOff sampleState "tok123" sampleRecord reqMixedCase "t1"
      SendOutcome.success rfl (Or.inl (by decide))).2.1⟩

end ProofOK
